import Mathlib

/-!
# Verification of the sqlite adapter (sqlite.go)

The repository is a thin adapter exposing a relational database connection,
transaction and cursor through a small interface, delegating all SQL work to
the underlying `database/sql` layer and the sqlite driver.  We embed the
adapter shallowly: the external driver layer is modelled by outcome
structures (`sqlDB`, `sqlTx`, `sqlRows`, `sqlResult`) that record, for each
possible underlying call, the value or low-level error it would produce; the
adapter functions are translated line by line from `sqlite.go` over those
outcomes.  Each adapter operation also returns the trace of underlying calls
it issues, mirroring the straight-line control flow of the Go code, so that
call-count properties (no retries, exactly one delegated call) are statable.

Error values follow the golang-plus errors package: `Err.wrap` attaches a
context message to a cause while keeping the cause recoverable
(`Err.rootCause`), exactly as `errors.Wrap` / `errors.Wrapf` do.
-/

/-- An error as produced by the golang-plus errors package: either a low-level
driver error, or a wrap of an error together with a context message. -/
inductive Err (ε : Type) where
  | low (cause : ε)
  | wrap (cause : Err ε) (msg : String)
deriving DecidableEq, Repr

/-- The root cause of an error: unwrap all context layers, as a caller
inspecting the original low-level cause would. -/
def Err.rootCause {ε : Type} : Err ε → ε
  | .low e => e
  | .wrap c _ => Err.rootCause c

/-- Go `%q` formatting of a string: the text surrounded by double quotes. -/
def quoted (s : String) : String := "\"" ++ s ++ "\""

/-- One underlying driver call issued by the adapter, recorded in traces. -/
inductive Call where
  | execCall (stmt : String)
  | rowsAffectedCall
  | queryCall (stmt : String)
  | beginCall
  | commitCall
  | rollbackCall
  | openCall (driverName : String) (dataSource : String)
  | scanCall
deriving DecidableEq, Repr

/-- Whether a call is a statement execution on the underlying handle. -/
def Call.isExec : Call → Bool
  | .execCall _ => true
  | _ => false

/-- Whether a call is a query on the underlying handle. -/
def Call.isQuery : Call → Bool
  | .queryCall _ => true
  | _ => false

/-- Outcome of the `database/sql` `Result.RowsAffected` call: the Go pair
`(int64, error)`. -/
structure sqlResult (ε : Type) where
  rowsAffected : Int × Option ε

/-- Model of a `database/sql` `*sql.Rows` value: the rows still fetchable in
order, an optional driver error hit after them (none means clean
exhaustion), and the outcome the underlying `Scan` would produce for a given
destination list. -/
structure sqlRows (ε ρ δ : Type) where
  pending : List ρ
  failAfter : Option ε
  scanOutcome : List δ → Option ε

/-- Modelled from the spec: the underlying driver's `Rows.Next`, absent from
src/ (it lives in the external `database/sql` package).  Per the spec it
"advances to the next row; returns false when exhausted or on underlying
error" and surfaces no error value. -/
def sqlRows.next {ε ρ δ : Type} : sqlRows ε ρ δ → Bool × sqlRows ε ρ δ
  | ⟨[], e, sc⟩ => (false, ⟨[], e, sc⟩)
  | ⟨_ :: rest, e, sc⟩ => (true, ⟨rest, e, sc⟩)

/-- Model of a `database/sql` `*sql.Tx` value: the outcome each underlying
call on the transaction context would produce. -/
structure sqlTx (ε ρ δ α : Type) where
  execOutcome : String → List α → Except ε (sqlResult ε)
  queryOutcome : String → List α → Except ε (sqlRows ε ρ δ)
  commitOutcome : Option ε
  rollbackOutcome : Option ε

/-- Model of a `database/sql` `*sql.DB` value: the outcome each underlying
call on the connection would produce. -/
structure sqlDB (ε ρ δ α : Type) where
  execOutcome : String → List α → Except ε (sqlResult ε)
  queryOutcome : String → List α → Except ε (sqlRows ε ρ δ)
  beginOutcome : Except ε (sqlTx ε ρ δ α)

/-- The wrap message of `database.Execute` / `transaction.Execute` when the
underlying `Exec` fails (`errors.Wrapf(err, "could not execute sql statement
%q", statement)`, sqlite.go:40,90). -/
def ExecError {ε : Type} (statement : String) (cause : ε) : Err ε :=
  .wrap (.low cause) ("could not execute sql statement " ++ quoted statement)

/-- The wrap of `errors.Wrap(err, "could not get number of rows affected")`
(sqlite.go:45,95). -/
def AffectedCountError {ε : Type} (cause : ε) : Err ε :=
  .wrap (.low cause) "could not get number of rows affected"

/-- The wrap of `errors.Wrapf(err, "could not query rows %q", statement)`
(sqlite.go:55,105). -/
def QueryError {ε : Type} (statement : String) (cause : ε) : Err ε :=
  .wrap (.low cause) ("could not query rows " ++ quoted statement)

/-- The wrap of `errors.Wrap(err, "could not start a transaction")`
(sqlite.go:115). -/
def BeginError {ε : Type} (cause : ε) : Err ε :=
  .wrap (.low cause) "could not start a transaction"

/-- The wrap of `errors.Wrap(err, "could not commit the transaction")`
(sqlite.go:75). -/
def CommitError {ε : Type} (cause : ε) : Err ε :=
  .wrap (.low cause) "could not commit the transaction"

/-- The wrap of `errors.Wrap(err, "could not abort the transaction")`
(sqlite.go:65). -/
def RollbackError {ε : Type} (cause : ε) : Err ε :=
  .wrap (.low cause) "could not abort the transaction"

/-- The wrap of `errors.Wrapf(err, "could not open the database %q",
dataSource)` (sqlite.go:125). -/
def OpenError {ε : Type} (dataSource : String) (cause : ε) : Err ε :=
  .wrap (.low cause) ("could not open the database " ++ quoted dataSource)

/-- The wrap of `errors.Wrap(err, "could not parse columns in current row")`
(sqlite.go:25). -/
def ScanError {ε : Type} (cause : ε) : Err ε :=
  .wrap (.low cause) "could not parse columns in current row"

/-- `rows` (sqlite.go:12): wraps the underlying `*sql.Rows`. -/
structure rows (ε ρ δ : Type) where
  Rows : sqlRows ε ρ δ

/-- `rows.Next` (sqlite.go:17): `return r.Rows.Next()`.  The advanced cursor
is returned alongside the boolean since the Go method mutates the receiver. -/
def rows.Next {ε ρ δ : Type} (r : rows ε ρ δ) : Bool × rows ε ρ δ :=
  let p := r.Rows.next
  (p.1, ⟨p.2⟩)

/-- `rows.Scan` (sqlite.go:22): delegate to `r.Rows.Scan(dest...)`; wrap a
failure as "could not parse columns in current row", return nil on success. -/
def rows.Scan {ε ρ δ : Type} (r : rows ε ρ δ) (dest : List δ) :
    Option (Err ε) × List Call :=
  match r.Rows.scanOutcome dest with
  | some err => (some (ScanError err), [Call.scanCall])
  | none => (none, [Call.scanCall])

/-- `transaction` (sqlite.go:32): wraps the underlying `*sql.Tx`. -/
structure transaction (ε ρ δ α : Type) where
  Tx : sqlTx ε ρ δ α

/-- `transaction.Execute` (sqlite.go:37): `t.Tx.Exec(statement, args...)`,
wrap an execution failure with the statement text; otherwise
`result.RowsAffected()`, wrap its failure; otherwise return the count. -/
def transaction.Execute {ε ρ δ α : Type} (t : transaction ε ρ δ α)
    (statement : String) (args : List α) : Int × Option (Err ε) × List Call :=
  match t.Tx.execOutcome statement args with
  | .error err => (0, some (ExecError statement err), [Call.execCall statement])
  | .ok result =>
      match result.rowsAffected with
      | (_, some err) =>
          (0, some (AffectedCountError err),
            [Call.execCall statement, Call.rowsAffectedCall])
      | (n, none) => (n, none, [Call.execCall statement, Call.rowsAffectedCall])

/-- `transaction.Query` (sqlite.go:52): `t.Tx.Query(statement, args...)`,
wrap a failure with the statement text; otherwise return the wrapped rows. -/
def transaction.Query {ε ρ δ α : Type} (t : transaction ε ρ δ α)
    (statement : String) (args : List α) :
    Option (rows ε ρ δ) × Option (Err ε) × List Call :=
  match t.Tx.queryOutcome statement args with
  | .error err => (none, some (QueryError statement err), [Call.queryCall statement])
  | .ok rs => (some ⟨rs⟩, none, [Call.queryCall statement])

/-- `transaction.Rollback` (sqlite.go:62): `t.Tx.Rollback()`, wrapping a
failure as "could not abort the transaction". -/
def transaction.Rollback {ε ρ δ α : Type} (t : transaction ε ρ δ α) :
    Option (Err ε) × List Call :=
  match t.Tx.rollbackOutcome with
  | some err => (some (RollbackError err), [Call.rollbackCall])
  | none => (none, [Call.rollbackCall])

/-- `transaction.Commit` (sqlite.go:72): `t.Tx.Commit()`, wrapping a failure
as "could not commit the transaction". -/
def transaction.Commit {ε ρ δ α : Type} (t : transaction ε ρ δ α) :
    Option (Err ε) × List Call :=
  match t.Tx.commitOutcome with
  | some err => (some (CommitError err), [Call.commitCall])
  | none => (none, [Call.commitCall])

/-- `database` (sqlite.go:82): wraps the underlying `*sql.DB`. -/
structure database (ε ρ δ α : Type) where
  DB : sqlDB ε ρ δ α

/-- `database.Execute` (sqlite.go:87): same body as `transaction.Execute`
but the `Exec` call goes to the connection. -/
def database.Execute {ε ρ δ α : Type} (d : database ε ρ δ α)
    (statement : String) (args : List α) : Int × Option (Err ε) × List Call :=
  match d.DB.execOutcome statement args with
  | .error err => (0, some (ExecError statement err), [Call.execCall statement])
  | .ok result =>
      match result.rowsAffected with
      | (_, some err) =>
          (0, some (AffectedCountError err),
            [Call.execCall statement, Call.rowsAffectedCall])
      | (n, none) => (n, none, [Call.execCall statement, Call.rowsAffectedCall])

/-- `database.Query` (sqlite.go:102): same body as `transaction.Query` but
the `Query` call goes to the connection. -/
def database.Query {ε ρ δ α : Type} (d : database ε ρ δ α)
    (statement : String) (args : List α) :
    Option (rows ε ρ δ) × Option (Err ε) × List Call :=
  match d.DB.queryOutcome statement args with
  | .error err => (none, some (QueryError statement err), [Call.queryCall statement])
  | .ok rs => (some ⟨rs⟩, none, [Call.queryCall statement])

/-- `database.Begin` (sqlite.go:112): `d.DB.Begin()`, wrap a failure as
"could not start a transaction", otherwise return the wrapped transaction. -/
def database.Begin {ε ρ δ α : Type} (d : database ε ρ δ α) :
    Option (transaction ε ρ δ α) × Option (Err ε) × List Call :=
  match d.DB.beginOutcome with
  | .error err => (none, some (BeginError err), [Call.beginCall])
  | .ok tx => (some ⟨tx⟩, none, [Call.beginCall])

/-- `NewDatabase` (sqlite.go:122): `sql.Open("sqlite3", dataSource)`, wrap a
failure with the data-source text, otherwise return the wrapped handle.  The
behaviour of the external `sql.Open` is passed in as `sqlOpen`. -/
def NewDatabase {ε ρ δ α : Type}
    (sqlOpen : String → String → Except ε (sqlDB ε ρ δ α)) (dataSource : String) :
    Option (database ε ρ δ α) × Option (Err ε) × List Call :=
  match sqlOpen "sqlite3" dataSource with
  | .error err =>
      (none, some (OpenError dataSource err),
        [Call.openCall "sqlite3" dataSource])
  | .ok db => (some ⟨db⟩, none, [Call.openCall "sqlite3" dataSource])

/-- `New` (sqlite.go:134): short for `NewDatabase`. -/
def New {ε ρ δ α : Type}
    (sqlOpen : String → String → Except ε (sqlDB ε ρ δ α)) (dataSource : String) :
    Option (database ε ρ δ α) × Option (Err ε) × List Call :=
  NewDatabase sqlOpen dataSource

/-- The root cause carried by an optional returned error (none when no error
was returned). -/
def errRoot {ε : Type} : Option (Err ε) → Option ε
  | none => none
  | some e => some e.rootCause

/-- Failures of the underlying driver's column decoding. -/
inductive ScanFailure where
  | countMismatch (columns : Nat) (dests : Nat)
  | notConvertible (position : Nat)
deriving DecidableEq, Repr

/-- Modelled from the spec: the position of the first destination whose
column value cannot be converted into it, scanning positionally; part of the
external driver's `Scan`, absent from src/. -/
def firstNotConvertible {υ δ : Type} (convertible : υ → δ → Bool) :
    Nat → List υ → List δ → Option Nat
  | _, [], _ => none
  | _, _ :: _, [] => none
  | i, v :: vs, d :: ds =>
      if convertible v d then firstNotConvertible convertible (i + 1) vs ds
      else some i

/-- Modelled from the spec: the underlying driver's `Scan`, absent from src/
(it lives in the external `database/sql` package).  Per the spec it decodes
"positionally, by count and convertible type", failing when the destination
count mismatches the row's column count or when some value cannot be
converted into its destination's expected shape. -/
def specScan {υ δ : Type} (convertible : υ → δ → Bool) (row : List υ)
    (dest : List δ) : Option ScanFailure :=
  if dest.length ≠ row.length then
    some (.countMismatch row.length dest.length)
  else
    match firstNotConvertible convertible 0 row dest with
    | some i => some (.notConvertible i)
    | none => none

/-- Modelled from the spec: the embedded engine's transactional store, absent
from src/ (it is owned by the sqlite engine).  `committed` is what queries on
a fresh handle observe; `draft` is what the open transaction has built.
Commit durably applies the draft; Rollback discards it. -/
structure Store (υ : Type) where
  committed : List υ
  draft : List υ
deriving DecidableEq, Repr

/-- Modelled from the spec: beginning a transaction starts the draft from the
committed contents. -/
def Store.beginTx {υ : Type} (s : Store υ) : Store υ :=
  ⟨s.committed, s.committed⟩

/-- Modelled from the spec: an insert executed inside the transaction appends
to the draft only. -/
def Store.insert {υ : Type} (s : Store υ) (v : υ) : Store υ :=
  ⟨s.committed, s.draft ++ [v]⟩

/-- Modelled from the spec: Commit durably applies all statements issued
within the transaction. -/
def Store.commitTx {υ : Type} (s : Store υ) : Store υ :=
  ⟨s.draft, s.draft⟩

/-- Modelled from the spec: Rollback discards all statements issued within
the transaction. -/
def Store.rollbackTx {υ : Type} (s : Store υ) : Store υ :=
  ⟨s.committed, s.committed⟩

/-- Modelled from the spec: a query on a fresh handle observes the committed
contents. -/
def Store.freshQuery {υ : Type} (s : Store υ) : List υ :=
  s.committed

/-- A cursor over an empty result set (empty table, clean exhaustion). -/
def emptyRows : sqlRows String String String :=
  { pending := [], failAfter := none, scanOutcome := fun _ => none }

/-- A cursor over two rows, exhausting cleanly. -/
def demoRows : sqlRows String String String :=
  { pending := ["row1", "row2"], failAfter := none, scanOutcome := fun _ => none }

/-- A cursor whose underlying iteration stopped on a driver error and whose
underlying decode fails. -/
def failRows : sqlRows String String String :=
  { pending := [], failAfter := some "connection lost",
    scanOutcome := fun _ => some "decode failed" }

/-- A concrete underlying transaction context used to evaluate the theorems:
one statement fails to execute, one executes but cannot report its affected
count, the rest succeed affecting one row; one query fails, one returns the
empty cursor, the rest return the two-row cursor; Commit and Rollback
succeed. -/
def demoTx : sqlTx String String String String :=
  { execOutcome := fun s _ =>
      if s = "BROKEN" then .error "syntax error"
      else if s = "NO COUNT" then .ok { rowsAffected := (0, some "count unsupported") }
      else .ok { rowsAffected := (1, none) },
    queryOutcome := fun s _ =>
      if s = "BROKEN" then .error "query failed"
      else if s = "SELECT id FROM empty" then .ok emptyRows
      else .ok demoRows,
    commitOutcome := none,
    rollbackOutcome := none }

/-- A concrete underlying connection whose direct calls behave exactly like
`demoTx` and whose Begin succeeds with `demoTx`. -/
def demoDB : sqlDB String String String String :=
  { execOutcome := demoTx.execOutcome,
    queryOutcome := demoTx.queryOutcome,
    beginOutcome := .ok demoTx }

/-- A concrete underlying transaction context on which every call fails. -/
def failTx : sqlTx String String String String :=
  { execOutcome := fun _ _ => .error "exec failed",
    queryOutcome := fun _ _ => .error "query failed",
    commitOutcome := some "commit failed",
    rollbackOutcome := some "rollback failed" }

/-- A concrete underlying connection on which every call fails. -/
def failDB : sqlDB String String String String :=
  { execOutcome := fun _ _ => .error "exec failed",
    queryOutcome := fun _ _ => .error "query failed",
    beginOutcome := .error "begin failed" }

/-- A concrete behaviour of the external `sql.Open` that always fails. -/
def failOpen : String → String → Except String (sqlDB String String String String) :=
  fun _ _ => .error "open failed"

/-- A concrete behaviour of the external `sql.Open` that always succeeds with
the demo connection. -/
def demoOpen : String → String → Except String (sqlDB String String String String) :=
  fun _ _ => .ok demoDB

/-- A concrete underlying connection whose statements execute successfully
but affect zero rows. -/
def zeroRowsDB : sqlDB String String String String :=
  { execOutcome := fun _ _ => .ok { rowsAffected := (0, none) },
    queryOutcome := fun _ _ => .error "unused",
    beginOutcome := .error "unused" }

/-- The results of k successive `rows.Next` calls on a cursor, in order. -/
def rows.nextRun {ε ρ δ : Type} : rows ε ρ δ → Nat → List Bool
  | _, 0 => []
  | r, k + 1 =>
      let p := rows.Next r
      p.1 :: rows.nextRun p.2 k

/-- A concrete convertibility relation for evaluating the scan model: every
value converts into a destination unless the destination slot is the literal
"BAD". -/
def demoConvertible : String → String → Bool :=
  fun _ d => d ≠ "BAD"

/-- A cursor whose underlying decode follows the modelled scan semantics for
the two-column row ["1", "2"]. -/
def scanDemoRows : rows ScanFailure String String :=
  ⟨⟨[], none, specScan demoConvertible ["1", "2"]⟩⟩

/-- C1: for every statement text and argument list, `database.Execute`
returns the affected-row count reported by the underlying driver and a nil
error when both the execution and the affected-count retrieval succeed; when
execution fails it returns 0 and an ExecError wrapping the statement text
and the underlying cause; when execution succeeds but the affected-row count
cannot be retrieved it returns 0 and an AffectedCountError wrapping that
cause. -/
theorem database_Execute_contract {ε ρ δ α : Type} (d : database ε ρ δ α)
    (statement : String) (args : List α) :
    (∀ result n, d.DB.execOutcome statement args = .ok result →
        result.rowsAffected = (n, none) →
        database.Execute d statement args =
          (n, none, [Call.execCall statement, Call.rowsAffectedCall])) ∧
    (∀ e, d.DB.execOutcome statement args = .error e →
        database.Execute d statement args =
          (0, some (ExecError statement e), [Call.execCall statement])) ∧
    (∀ result n e, d.DB.execOutcome statement args = .ok result →
        result.rowsAffected = (n, some e) →
        database.Execute d statement args =
          (0, some (AffectedCountError e),
            [Call.execCall statement, Call.rowsAffectedCall])) := by
  refine ⟨?_, ?_, ?_⟩
  · intro result n h1 h2
    simp [database.Execute, h1, h2]
  · intro e h
    simp [database.Execute, h]
  · intro result n e h1 h2
    simp [database.Execute, h1, h2]

/-- C1 witness: the three branches of `database_Execute_contract` evaluated
on the concrete demo connection. -/
theorem database_Execute_contract_witness :
    database.Execute ⟨demoDB⟩ "INSERT INTO t VALUES (1)" [] =
      (1, none, [Call.execCall "INSERT INTO t VALUES (1)", Call.rowsAffectedCall]) ∧
    database.Execute ⟨demoDB⟩ "BROKEN" [] =
      (0, some (ExecError "BROKEN" "syntax error"), [Call.execCall "BROKEN"]) ∧
    database.Execute ⟨demoDB⟩ "NO COUNT" [] =
      (0, some (AffectedCountError "count unsupported"),
        [Call.execCall "NO COUNT", Call.rowsAffectedCall]) :=
  ⟨(database_Execute_contract ⟨demoDB⟩ "INSERT INTO t VALUES (1)" []).1 _ 1 rfl rfl,
   (database_Execute_contract ⟨demoDB⟩ "BROKEN" []).2.1 "syntax error" rfl,
   (database_Execute_contract ⟨demoDB⟩ "NO COUNT" []).2.2 _ 0 "count unsupported" rfl rfl⟩

/-- C2: whenever the underlying transaction context produces the same
outcome as the underlying connection for a statement and argument list,
`transaction.Execute` returns exactly what `database.Execute` returns and
`transaction.Query` returns exactly what `database.Query` returns — same
values, same error wrapping, same issued calls; the two differ only in which
underlying context the call is issued against. -/
theorem transaction_ops_match_database_ops {ε ρ δ α : Type}
    (t : transaction ε ρ δ α) (d : database ε ρ δ α)
    (statement : String) (args : List α) :
    (t.Tx.execOutcome statement args = d.DB.execOutcome statement args →
      transaction.Execute t statement args = database.Execute d statement args) ∧
    (t.Tx.queryOutcome statement args = d.DB.queryOutcome statement args →
      transaction.Query t statement args = database.Query d statement args) := by
  constructor
  · intro h
    unfold transaction.Execute database.Execute
    rw [h]
  · intro h
    unfold transaction.Query database.Query
    rw [h]

/-- C2 witness: on the demo transaction and demo connection (whose
underlying outcomes agree), Execute and Query coincide. -/
theorem transaction_ops_match_database_ops_witness :
    transaction.Execute ⟨demoTx⟩ "INSERT INTO t VALUES (1)" [] =
      database.Execute ⟨demoDB⟩ "INSERT INTO t VALUES (1)" [] ∧
    transaction.Query ⟨demoTx⟩ "SELECT id FROM t" [] =
      database.Query ⟨demoDB⟩ "SELECT id FROM t" [] :=
  ⟨(transaction_ops_match_database_ops ⟨demoTx⟩ ⟨demoDB⟩ "INSERT INTO t VALUES (1)" []).1 rfl,
   (transaction_ops_match_database_ops ⟨demoTx⟩ ⟨demoDB⟩ "SELECT id FROM t" []).2 rfl⟩

/-- C3: when the external `sql.Open` succeeds for a data source (a valid
identifier), `NewDatabase` returns a usable handle wrapping the opened
connection and a nil error; when it fails (invalid or unwritable path),
`NewDatabase` returns an OpenError whose message carries the identifier
attempted and whose root cause is the non-nil underlying error. -/
theorem NewDatabase_contract {ε ρ δ α : Type}
    (sqlOpen : String → String → Except ε (sqlDB ε ρ δ α)) (dataSource : String) :
    (∀ db, sqlOpen "sqlite3" dataSource = .ok db →
      NewDatabase sqlOpen dataSource =
        (some ⟨db⟩, none, [Call.openCall "sqlite3" dataSource])) ∧
    (∀ e, sqlOpen "sqlite3" dataSource = .error e →
      NewDatabase sqlOpen dataSource =
        (none, some (OpenError dataSource e), [Call.openCall "sqlite3" dataSource]) ∧
      (OpenError dataSource e).rootCause = e) := by
  constructor
  · intro db h
    simp [NewDatabase, h]
  · intro e h
    refine ⟨?_, rfl⟩
    simp [NewDatabase, h]

/-- C3 witness: `NewDatabase` on a succeeding and on a failing `sql.Open`. -/
theorem NewDatabase_contract_witness :
    NewDatabase demoOpen "test.db" =
      (some ⟨demoDB⟩, none, [Call.openCall "sqlite3" "test.db"]) ∧
    (NewDatabase failOpen "/no/such/dir/x.db" =
      (none, some (OpenError "/no/such/dir/x.db" "open failed"),
        [Call.openCall "sqlite3" "/no/such/dir/x.db"]) ∧
      (OpenError "/no/such/dir/x.db" ("open failed" : String)).rootCause = "open failed") :=
  ⟨(NewDatabase_contract demoOpen "test.db").1 demoDB rfl,
   (NewDatabase_contract failOpen "/no/such/dir/x.db").2 "open failed" rfl⟩

/-- C4: `rows.Next` returns a plain boolean (its return type carries no
error component, mirroring the Go signature `Next() bool`), and it returns
false exactly when no further row is fetchable — both when the result set is
cleanly exhausted and when the underlying driver stopped with an error, the
error case stated explicitly in the second conjunct. -/
theorem rows_Next_no_error {ε ρ δ : Type} (r : rows ε ρ δ) :
    ((rows.Next r).1 = false ↔ r.Rows.pending = []) ∧
    (∀ e, r.Rows.pending = [] → r.Rows.failAfter = some e →
      (rows.Next r).1 = false) := by
  obtain ⟨⟨p, fa, sc⟩⟩ := r
  constructor
  · cases p <;> simp [rows.Next, sqlRows.next]
  · intro e hp _
    cases p with
    | nil => simp [rows.Next, sqlRows.next]
    | cons x xs => simp at hp

/-- C4 witness: on a cursor whose underlying iteration stopped with a driver
error, Next returns false. -/
theorem rows_Next_no_error_witness :
    failRows.pending = [] ∧ failRows.failAfter = some "connection lost" ∧
    (rows.Next ⟨failRows⟩).1 = false :=
  ⟨rfl, rfl,
   (rows_Next_no_error ⟨failRows⟩).2 "connection lost" rfl rfl⟩

/-- C5: on a cursor whose underlying decode follows the driver's scan
semantics (`specScan`), `rows.Scan` returns nil when the row's columns
decode positionally into the destinations; when the destination count
mismatches the row's column count, or when some value cannot be converted
into its destination, it returns a ScanError wrapping the low-level decode
cause. -/
theorem rows_Scan_contract {υ ρ δ : Type} (convertible : υ → δ → Bool)
    (row : List υ) (r : rows ScanFailure ρ δ) (dest : List δ)
    (hs : r.Rows.scanOutcome = specScan convertible row) :
    (specScan convertible row dest = none →
      rows.Scan r dest = (none, [Call.scanCall])) ∧
    (dest.length ≠ row.length →
      rows.Scan r dest =
        (some (ScanError (.countMismatch row.length dest.length)),
          [Call.scanCall])) ∧
    (∀ i, dest.length = row.length →
      firstNotConvertible convertible 0 row dest = some i →
      rows.Scan r dest =
        (some (ScanError (.notConvertible i)), [Call.scanCall])) := by
  refine ⟨?_, ?_, ?_⟩
  · intro h
    simp [rows.Scan, hs, h]
  · intro h
    simp [rows.Scan, hs, specScan, h]
  · intro i he hf
    simp [rows.Scan, hs, specScan, he, hf]

/-- C5 witness: a two-column row scanned with matching convertible
destinations, with too few destinations, and with an unconvertible
destination. -/
theorem rows_Scan_contract_witness :
    rows.Scan scanDemoRows ["a", "b"] = (none, [Call.scanCall]) ∧
    rows.Scan scanDemoRows ["a"] =
      (some (ScanError (.countMismatch 2 1)), [Call.scanCall]) ∧
    rows.Scan scanDemoRows ["a", "BAD"] =
      (some (ScanError (.notConvertible 1)), [Call.scanCall]) :=
  ⟨(rows_Scan_contract demoConvertible ["1", "2"] scanDemoRows
      ["a", "b"] rfl).1 (by decide),
   (rows_Scan_contract demoConvertible ["1", "2"] scanDemoRows
      ["a"] rfl).2.1 (by decide),
   (rows_Scan_contract demoConvertible ["1", "2"] scanDemoRows
      ["a", "BAD"] rfl).2.2 1 (by decide) (by decide)⟩

/-- Auxiliary for C6: iterating a cursor over l yields l.length trues then a
false, by induction on the fetchable rows. -/
theorem nextRun_replicate {ε ρ δ : Type} (l : List ρ) (fa : Option ε)
    (sc : List δ → Option ε) :
    rows.nextRun ⟨⟨l, fa, sc⟩⟩ (l.length + 1) =
      List.replicate l.length true ++ [false] := by
  induction l with
  | nil => simp [rows.nextRun, rows.Next, sqlRows.next]
  | cons x xs ih =>
      simp [rows.nextRun, rows.Next, sqlRows.next, List.replicate]
      exact ih

/-- C6: a cursor returned by `database.Query` whose result set holds N rows
yields exactly N Next()==true results followed by one Next()==false; with
N = 0 (empty table) the very first Next() is false. -/
theorem query_cursor_exact_count {ε ρ δ α : Type} (d : database ε ρ δ α)
    (statement : String) (args : List α) (r : rows ε ρ δ) (N : Nat)
    (hq : (database.Query d statement args).1 = some r)
    (hN : r.Rows.pending.length = N) :
    rows.nextRun r (N + 1) = List.replicate N true ++ [false] := by
  obtain ⟨⟨l, fa, sc⟩⟩ := r
  simp only [] at hN
  subst hN
  exact nextRun_replicate l fa sc

/-- C6 witness: the demo two-row cursor yields true, true, false; the empty
cursor yields false immediately. -/
theorem query_cursor_exact_count_witness :
    rows.nextRun ⟨demoRows⟩ (2 + 1) = List.replicate 2 true ++ [false] ∧
    rows.nextRun ⟨emptyRows⟩ (0 + 1) = List.replicate 0 true ++ [false] :=
  ⟨query_cursor_exact_count ⟨demoDB⟩ "SELECT id FROM t" [] ⟨demoRows⟩ 2 rfl rfl,
   query_cursor_exact_count ⟨demoDB⟩ "SELECT id FROM empty" [] ⟨emptyRows⟩ 0 rfl rfl⟩

/-- C7: over the engine's transactional store, an insert followed by
Rollback leaves what a fresh handle observes unchanged, while the same
insert followed by Commit makes the inserted row durably visible; and the
adapter's Rollback and Commit pass a successful underlying finalization
through with a nil error. -/
theorem transaction_rollback_commit_visibility {υ ε ρ δ α : Type}
    (s : Store υ) (v : υ) (t : transaction ε ρ δ α) :
    ((s.beginTx.insert v).rollbackTx.freshQuery = s.freshQuery) ∧
    ((s.beginTx.insert v).commitTx.freshQuery = s.freshQuery ++ [v]) ∧
    (t.Tx.rollbackOutcome = none →
      transaction.Rollback t = (none, [Call.rollbackCall])) ∧
    (t.Tx.commitOutcome = none →
      transaction.Commit t = (none, [Call.commitCall])) := by
  refine ⟨rfl, rfl, ?_, ?_⟩
  · intro h
    simp [transaction.Rollback, h]
  · intro h
    simp [transaction.Commit, h]

/-- C7 witness: a store holding one committed row, an inserted second row,
rolled back and committed, and the demo transaction's successful
finalizations. -/
theorem transaction_rollback_commit_visibility_witness :
    ((Store.mk ["a"] ["a"]).beginTx.insert "b").rollbackTx.freshQuery = ["a"] ∧
    ((Store.mk ["a"] ["a"]).beginTx.insert "b").commitTx.freshQuery = ["a", "b"] ∧
    transaction.Rollback ⟨demoTx⟩ = (none, [Call.rollbackCall]) ∧
    transaction.Commit ⟨demoTx⟩ = (none, [Call.commitCall]) :=
  ⟨(transaction_rollback_commit_visibility (Store.mk ["a"] ["a"]) "b" ⟨demoTx⟩).1,
   (transaction_rollback_commit_visibility (Store.mk ["a"] ["a"]) "b" ⟨demoTx⟩).2.1,
   (transaction_rollback_commit_visibility (Store.mk ["a"] ["a"]) "b"
      (transaction.mk demoTx)).2.2.1 rfl,
   (transaction_rollback_commit_visibility (Store.mk ["a"] ["a"]) "b"
      (transaction.mk demoTx)).2.2.2 rfl⟩

/-- C8: for every statement text and argument list, `database.Query` returns
the live cursor wrapping the underlying rows and a nil error when the
underlying query succeeds; on failure it returns a QueryError whose message
carries the statement text and whose root cause is the underlying error. -/
theorem database_Query_contract {ε ρ δ α : Type} (d : database ε ρ δ α)
    (statement : String) (args : List α) :
    (∀ rs, d.DB.queryOutcome statement args = .ok rs →
      database.Query d statement args =
        (some ⟨rs⟩, none, [Call.queryCall statement])) ∧
    (∀ e, d.DB.queryOutcome statement args = .error e →
      database.Query d statement args =
        (none, some (QueryError statement e), [Call.queryCall statement]) ∧
      (QueryError statement e).rootCause = e) := by
  constructor
  · intro rs h
    simp [database.Query, h]
  · intro e h
    refine ⟨?_, rfl⟩
    simp [database.Query, h]

/-- C8 witness: a succeeding and a failing query on the demo connection. -/
theorem database_Query_contract_witness :
    database.Query ⟨demoDB⟩ "SELECT id FROM t" [] =
      (some ⟨demoRows⟩, none, [Call.queryCall "SELECT id FROM t"]) ∧
    (database.Query ⟨demoDB⟩ "BROKEN" [] =
      (none, some (QueryError "BROKEN" "query failed"), [Call.queryCall "BROKEN"]) ∧
      (QueryError "BROKEN" ("query failed" : String)).rootCause = "query failed") :=
  ⟨(database_Query_contract ⟨demoDB⟩ "SELECT id FROM t" []).1 demoRows rfl,
   (database_Query_contract ⟨demoDB⟩ "BROKEN" []).2 "query failed" rfl⟩

/-- C9: for every adapter operation and every underlying-driver error, the
returned error's root cause is that exact underlying error (recoverable,
never replaced, never swallowed: `errRoot` yields `some` of it), and the
operation's trace records the delegated underlying call exactly once, so no
failure is retried. -/
theorem adapter_wraps_cause_calls_once {ε ρ δ α : Type}
    (d : database ε ρ δ α) (t : transaction ε ρ δ α) (r : rows ε ρ δ)
    (sqlOpen : String → String → Except ε (sqlDB ε ρ δ α))
    (statement : String) (args : List α) (dest : List δ) (dataSource : String) :
    (∀ e, d.DB.execOutcome statement args = .error e →
      errRoot (database.Execute d statement args).2.1 = some e) ∧
    (∀ result n e, d.DB.execOutcome statement args = .ok result →
      result.rowsAffected = (n, some e) →
      errRoot (database.Execute d statement args).2.1 = some e) ∧
    ((database.Execute d statement args).2.2.countP (fun c => c.isExec) = 1) ∧
    (∀ e, t.Tx.execOutcome statement args = .error e →
      errRoot (transaction.Execute t statement args).2.1 = some e) ∧
    (∀ result n e, t.Tx.execOutcome statement args = .ok result →
      result.rowsAffected = (n, some e) →
      errRoot (transaction.Execute t statement args).2.1 = some e) ∧
    ((transaction.Execute t statement args).2.2.countP (fun c => c.isExec) = 1) ∧
    (∀ e, d.DB.queryOutcome statement args = .error e →
      errRoot (database.Query d statement args).2.1 = some e) ∧
    ((database.Query d statement args).2.2.countP (fun c => c.isQuery) = 1) ∧
    (∀ e, t.Tx.queryOutcome statement args = .error e →
      errRoot (transaction.Query t statement args).2.1 = some e) ∧
    ((transaction.Query t statement args).2.2.countP (fun c => c.isQuery) = 1) ∧
    (∀ e, d.DB.beginOutcome = .error e →
      errRoot (database.Begin d).2.1 = some e) ∧
    ((database.Begin d).2.2 = [Call.beginCall]) ∧
    (∀ e, t.Tx.commitOutcome = some e →
      errRoot (transaction.Commit t).1 = some e) ∧
    ((transaction.Commit t).2 = [Call.commitCall]) ∧
    (∀ e, t.Tx.rollbackOutcome = some e →
      errRoot (transaction.Rollback t).1 = some e) ∧
    ((transaction.Rollback t).2 = [Call.rollbackCall]) ∧
    (∀ e, r.Rows.scanOutcome dest = some e →
      errRoot (rows.Scan r dest).1 = some e) ∧
    ((rows.Scan r dest).2 = [Call.scanCall]) ∧
    (∀ e, sqlOpen "sqlite3" dataSource = .error e →
      errRoot (NewDatabase sqlOpen dataSource).2.1 = some e) ∧
    ((NewDatabase sqlOpen dataSource).2.2 =
      [Call.openCall "sqlite3" dataSource]) := by
  refine ⟨?_, ?_, ?_, ?_, ?_, ?_, ?_, ?_, ?_, ?_, ?_, ?_, ?_, ?_, ?_, ?_, ?_,
    ?_, ?_, ?_⟩
  · intro e h
    simp [database.Execute, h, errRoot, ExecError, Err.rootCause]
  · intro result n e h1 h2
    simp [database.Execute, h1, h2, errRoot, AffectedCountError, Err.rootCause]
  · rcases hx : d.DB.execOutcome statement args with e | result
    · simp [database.Execute, hx, List.countP_cons, List.countP_nil, Call.isExec]
    · rcases hr : result.rowsAffected with ⟨n, oe⟩
      cases oe <;>
        simp [database.Execute, hx, hr, List.countP_cons, List.countP_nil,
          Call.isExec]
  · intro e h
    simp [transaction.Execute, h, errRoot, ExecError, Err.rootCause]
  · intro result n e h1 h2
    simp [transaction.Execute, h1, h2, errRoot, AffectedCountError, Err.rootCause]
  · rcases hx : t.Tx.execOutcome statement args with e | result
    · simp [transaction.Execute, hx, List.countP_cons, List.countP_nil,
        Call.isExec]
    · rcases hr : result.rowsAffected with ⟨n, oe⟩
      cases oe <;>
        simp [transaction.Execute, hx, hr, List.countP_cons, List.countP_nil,
          Call.isExec]
  · intro e h
    simp [database.Query, h, errRoot, QueryError, Err.rootCause]
  · rcases hx : d.DB.queryOutcome statement args with e | rs <;>
      simp [database.Query, hx, List.countP, List.countP.go, Call.isQuery]
  · intro e h
    simp [transaction.Query, h, errRoot, QueryError, Err.rootCause]
  · rcases hx : t.Tx.queryOutcome statement args with e | rs <;>
      simp [transaction.Query, hx, List.countP, List.countP.go, Call.isQuery]
  · intro e h
    simp [database.Begin, h, errRoot, BeginError, Err.rootCause]
  · rcases hx : d.DB.beginOutcome with e | tx <;> simp [database.Begin, hx]
  · intro e h
    simp [transaction.Commit, h, errRoot, CommitError, Err.rootCause]
  · rcases hx : t.Tx.commitOutcome with _ | e <;> simp [transaction.Commit, hx]
  · intro e h
    simp [transaction.Rollback, h, errRoot, RollbackError, Err.rootCause]
  · rcases hx : t.Tx.rollbackOutcome with _ | e <;> simp [transaction.Rollback, hx]
  · intro e h
    simp [rows.Scan, h, errRoot, ScanError, Err.rootCause]
  · rcases hx : r.Rows.scanOutcome dest with _ | e <;> simp [rows.Scan, hx]
  · intro e h
    simp [NewDatabase, h, errRoot, OpenError, Err.rootCause]
  · rcases hx : sqlOpen "sqlite3" dataSource with e | db <;> simp [NewDatabase, hx]

/-- C9 witness: the root causes recovered from each failing operation on the
all-failing fixtures, the affected-count failure on the demo connection, and
the exactly-once call traces. -/
theorem adapter_wraps_cause_calls_once_witness :
    errRoot (database.Execute ⟨failDB⟩ "X" []).2.1 = some "exec failed" ∧
    errRoot (database.Execute ⟨demoDB⟩ "NO COUNT" []).2.1 =
      some "count unsupported" ∧
    (database.Execute ⟨failDB⟩ "X" []).2.2.countP (fun c => c.isExec) = 1 ∧
    errRoot (transaction.Execute ⟨failTx⟩ "X" []).2.1 = some "exec failed" ∧
    errRoot (transaction.Execute ⟨demoTx⟩ "NO COUNT" []).2.1 =
      some "count unsupported" ∧
    errRoot (database.Query ⟨failDB⟩ "X" []).2.1 = some "query failed" ∧
    errRoot (transaction.Query ⟨failTx⟩ "X" []).2.1 = some "query failed" ∧
    errRoot (database.Begin ⟨failDB⟩).2.1 = some "begin failed" ∧
    errRoot (transaction.Commit ⟨failTx⟩).1 = some "commit failed" ∧
    errRoot (transaction.Rollback ⟨failTx⟩).1 = some "rollback failed" ∧
    errRoot (rows.Scan ⟨failRows⟩ ["a"]).1 = some "decode failed" ∧
    errRoot (NewDatabase failOpen "f.db").2.1 = some "open failed" :=
  ⟨(adapter_wraps_cause_calls_once ⟨failDB⟩ ⟨failTx⟩ ⟨failRows⟩ failOpen
      "X" [] ["a"] "f.db").1 "exec failed" rfl,
   (adapter_wraps_cause_calls_once ⟨demoDB⟩ ⟨demoTx⟩ ⟨failRows⟩ failOpen
      "NO COUNT" [] ["a"] "f.db").2.1 _ 0 "count unsupported" rfl rfl,
   (adapter_wraps_cause_calls_once ⟨failDB⟩ ⟨failTx⟩ ⟨failRows⟩ failOpen
      "X" [] ["a"] "f.db").2.2.1,
   (adapter_wraps_cause_calls_once ⟨failDB⟩ ⟨failTx⟩ ⟨failRows⟩ failOpen
      "X" [] ["a"] "f.db").2.2.2.1 "exec failed" rfl,
   (adapter_wraps_cause_calls_once ⟨demoDB⟩ ⟨demoTx⟩ ⟨failRows⟩ failOpen
      "NO COUNT" [] ["a"] "f.db").2.2.2.2.1 _ 0 "count unsupported" rfl rfl,
   (adapter_wraps_cause_calls_once ⟨failDB⟩ ⟨failTx⟩ ⟨failRows⟩ failOpen
      "X" [] ["a"] "f.db").2.2.2.2.2.2.1 "query failed" rfl,
   (adapter_wraps_cause_calls_once ⟨failDB⟩ ⟨failTx⟩ ⟨failRows⟩ failOpen
      "X" [] ["a"] "f.db").2.2.2.2.2.2.2.2.1 "query failed" rfl,
   (adapter_wraps_cause_calls_once ⟨failDB⟩ ⟨failTx⟩ ⟨failRows⟩ failOpen
      "X" [] ["a"] "f.db").2.2.2.2.2.2.2.2.2.2.1 "begin failed" rfl,
   (adapter_wraps_cause_calls_once ⟨failDB⟩ ⟨failTx⟩ ⟨failRows⟩ failOpen
      "X" [] ["a"] "f.db").2.2.2.2.2.2.2.2.2.2.2.2.1 "commit failed" rfl,
   (adapter_wraps_cause_calls_once ⟨failDB⟩ ⟨failTx⟩ ⟨failRows⟩ failOpen
      "X" [] ["a"] "f.db").2.2.2.2.2.2.2.2.2.2.2.2.2.2.1 "rollback failed" rfl,
   (adapter_wraps_cause_calls_once ⟨failDB⟩ ⟨failTx⟩ ⟨failRows⟩ failOpen
      "X" [] ["a"] "f.db").2.2.2.2.2.2.2.2.2.2.2.2.2.2.2.2.1 "decode failed" rfl,
   (adapter_wraps_cause_calls_once ⟨failDB⟩ ⟨failTx⟩ ⟨failRows⟩ failOpen
      "X" [] ["a"] "f.db").2.2.2.2.2.2.2.2.2.2.2.2.2.2.2.2.2.2.1 "open failed" rfl⟩

/-- C10 counterexample: the claim "the success value is the zero value
exactly when the error is non-nil" fails for Execute.  On a connection whose
underlying execution succeeds but affects zero rows, `database.Execute`
returns the zero value 0 together with a nil error, so the biconditional
"value is zero iff error is non-nil" is false at this concrete input. -/
theorem zero_value_iff_error_counterexample :
    ¬ (((database.Execute ⟨zeroRowsDB⟩ "DELETE FROM t WHERE 0 = 1" []).1 = 0) ↔
        ((database.Execute ⟨zeroRowsDB⟩ "DELETE FROM t WHERE 0 = 1" []).2.1 ≠ none)) := by
  intro h
  exact (h.mp rfl) rfl

/-- C10 amended: `database.Execute` and `transaction.Execute` return 0
whenever their error is non-nil (but may also return 0 with a nil error,
e.g. when a statement affects zero rows); `database.Query`,
`transaction.Query`, `database.Begin`, `NewDatabase` and `New` return a nil
handle exactly when their error is non-nil, hence a non-nil handle exactly
when the error is nil. -/
theorem zero_values_on_error {ε ρ δ α : Type} (d : database ε ρ δ α)
    (t : transaction ε ρ δ α)
    (sqlOpen : String → String → Except ε (sqlDB ε ρ δ α))
    (statement : String) (args : List α) (dataSource : String) :
    ((database.Execute d statement args).2.1 ≠ none →
      (database.Execute d statement args).1 = 0) ∧
    ((transaction.Execute t statement args).2.1 ≠ none →
      (transaction.Execute t statement args).1 = 0) ∧
    ((database.Query d statement args).1 = none ↔
      (database.Query d statement args).2.1 ≠ none) ∧
    ((transaction.Query t statement args).1 = none ↔
      (transaction.Query t statement args).2.1 ≠ none) ∧
    ((database.Begin d).1 = none ↔ (database.Begin d).2.1 ≠ none) ∧
    ((NewDatabase sqlOpen dataSource).1 = none ↔
      (NewDatabase sqlOpen dataSource).2.1 ≠ none) ∧
    ((New sqlOpen dataSource).1 = none ↔
      (New sqlOpen dataSource).2.1 ≠ none) := by
  refine ⟨?_, ?_, ?_, ?_, ?_, ?_, ?_⟩
  · intro h
    rcases hx : d.DB.execOutcome statement args with e | result
    · simp [database.Execute, hx]
    · rcases hr : result.rowsAffected with ⟨n, oe⟩
      cases oe with
      | none => simp [database.Execute, hx, hr] at h
      | some e => simp [database.Execute, hx, hr]
  · intro h
    rcases hx : t.Tx.execOutcome statement args with e | result
    · simp [transaction.Execute, hx]
    · rcases hr : result.rowsAffected with ⟨n, oe⟩
      cases oe with
      | none => simp [transaction.Execute, hx, hr] at h
      | some e => simp [transaction.Execute, hx, hr]
  · rcases hx : d.DB.queryOutcome statement args with e | rs <;>
      simp [database.Query, hx]
  · rcases hx : t.Tx.queryOutcome statement args with e | rs <;>
      simp [transaction.Query, hx]
  · rcases hx : d.DB.beginOutcome with e | tx <;> simp [database.Begin, hx]
  · rcases hx : sqlOpen "sqlite3" dataSource with e | db <;>
      simp [NewDatabase, hx]
  · rcases hx : sqlOpen "sqlite3" dataSource with e | db <;>
      simp [New, NewDatabase, hx]

/-- C10 witness: the amended claim evaluated on the all-failing and the demo
fixtures. -/
theorem zero_values_on_error_witness :
    (database.Execute ⟨failDB⟩ "X" []).1 = 0 ∧
    (transaction.Execute ⟨failTx⟩ "X" []).1 = 0 ∧
    ((database.Query ⟨demoDB⟩ "SELECT id FROM t" []).1 = none ↔
      (database.Query ⟨demoDB⟩ "SELECT id FROM t" []).2.1 ≠ none) ∧
    ((NewDatabase failOpen "f.db").1 = none ↔
      (NewDatabase failOpen "f.db").2.1 ≠ none) :=
  ⟨(zero_values_on_error ⟨failDB⟩ ⟨failTx⟩ failOpen "X" [] "f.db").1
      (by simp [database.Execute, failDB]),
   (zero_values_on_error ⟨failDB⟩ ⟨failTx⟩ failOpen "X" [] "f.db").2.1
      (by simp [transaction.Execute, failTx]),
   (zero_values_on_error ⟨demoDB⟩ ⟨demoTx⟩ failOpen "SELECT id FROM t" []
      "f.db").2.2.1,
   (zero_values_on_error ⟨failDB⟩ ⟨failTx⟩ failOpen "X" [] "f.db").2.2.2.2.2.1⟩
